import Mathlib

/-!
# Verification of the ayame-web-sdk `Connection` signaling state machine

A shallow embedding of `src/connection.js` (the `Connection` class of
kabosy620/ayame-web-sdk) and of the entry point `src/index.js`.

Modelling conventions:

* The single-threaded, event-driven JavaScript semantics is modelled by pure
  functions from the `Conn` state (the mutable fields of the `Connection`
  object) to a new state plus a list of observable `Output`s (messages sent on
  the signaling WebSocket, public callbacks fired, engine interactions).
* External collaborators (the WebRTC engine, the WebSocket, SDP/codec string
  helpers living in `utils.js`) are oracles packaged in an `Env` record; the
  SDK only forwards their results, so their outputs are free parameters.
* Fallible JavaScript code (a `throw`, or a promise `reject`) is modelled with
  `Except String`; the string is the error/reason value of the source.
* `RTCPeerConnection.close()` settles `signalingState` to `"closed"` and
  `WebSocket.close()` leads the transport to `readyState` 3; in the sequential
  model no other event interleaves with a running handler, so the polling
  loops of `disconnect()` observe the settled state on their first iteration
  and their "handle vanished" reject branches (kept in the definitions below)
  cannot fire.
-/

/-- A media stream handle (`window.MediaStream`): only its identity and which
kinds of tracks it carries are consulted by `connection.js`. -/
structure MediaStream where
  id : String
  hasAudioTrack : Bool
  hasVideoTrack : Bool
  deriving Repr, DecidableEq

/-- A session description (`window.RTCSessionDescription`): a `type` tag
(`"offer"`/`"answer"`) and the SDP text. -/
structure Sdp where
  type_ : String
  sdp : String
  deriving Repr, DecidableEq

/-- The slice of `window.RTCPeerConnection` state that `connection.js`
reads back: `signalingState`, `iceConnectionState` and `localDescription`. -/
structure PC where
  signalingState : String
  iceConnectionState : String
  localDescription : Option Sdp
  deriving Repr, DecidableEq

/-- The slice of WebSocket state used by `connection.js`: the numeric
`readyState` (3 = CLOSED) and which `onclose` handler is installed
(0 = the rejecting handler installed by `_signaling`, 1 = the
disconnect-and-callback handler installed after `accept`, 2 = the no-op
handler installed by `disconnect`). -/
structure WS where
  readyState : Nat
  oncloseTag : Nat
  deriving Repr, DecidableEq

/-- An `RTCDataChannel` as seen by the registry `_dataChannels`:
its `label` and its `readyState` string. -/
structure DataChannel where
  label : String
  readyState : String
  deriving Repr, DecidableEq

/-- `ConnectionAudioOption` of `connection.js`. -/
structure ConnectionAudioOption where
  direction : String
  enabled : Bool
  codec : Option String
  deriving Repr, DecidableEq

/-- `ConnectionVideoOption` of `connection.js`. -/
structure ConnectionVideoOption where
  direction : String
  enabled : Bool
  codec : Option String
  deriving Repr, DecidableEq

/-- `ConnectionOptions` of `connection.js` (`iceServers` is opaque to the
core: it is only handed to the engine). -/
structure ConnectionOptions where
  audio : ConnectionAudioOption
  video : ConnectionVideoOption
  clientId : String
  iceServers : List String
  deriving Repr, DecidableEq

/-- The `_callbacks` table built in the constructor: one subscriber slot per
event kind; callbacks themselves are identified by a numeral (0 is the no-op
installed by the constructor).  `extra` holds the own properties that later
`on()` calls may add beyond the five constructor keys: JavaScript's `in`
operator walks the prototype chain, so `on()` also accepts every property
name inherited from `Object.prototype` (such as `"toString"`) and then
assigns the callback into the table under that name. -/
structure Callbacks where
  connect : Nat
  disconnect : Nat
  addstream : Nat
  removestream : Nat
  data : Nat
  extra : List (String × Nat)
  deriving Repr, DecidableEq

/-- The mutable fields of a `Connection` object. -/
structure Conn where
  debug : Bool
  roomId : String
  signalingUrl : String
  options : ConnectionOptions
  stream : Option MediaStream
  remoteStreamId : Option String
  authnMetadata : Option String
  isNegotiating : Bool
  ws : Option WS
  pc : Option PC
  removeCodec : Bool
  dataChannels : List DataChannel
  callbacks : Callbacks
  deriving Repr, DecidableEq

/-- Oracles for the external collaborators: the engine and the string helpers
are outside the verified core; the SDK forwards their results verbatim. -/
structure Env where
  /-- result of the `browser()` capability probe in `utils.js`. -/
  browser : String
  /-- SDP text produced by `RTCPeerConnection.createOffer`. -/
  createOfferSdp : String
  /-- offer SDP after the `removeCodec` text filtering of `utils.js`. -/
  strippedOfferSdp : String
  /-- SDP text produced by `RTCPeerConnection.createAnswer`. -/
  createAnswerSdp : String
  /-- whether the engine exposes `RTCRtpTransceiver.setCodecPreferences`. -/
  hasSetCodecPreferences : Bool
  /-- whether `setRemoteDescription` of a remote offer succeeds. -/
  setRemoteOfferOk : Bool
  /-- whether `createAnswer` succeeds. -/
  createAnswerOk : Bool
  /-- whether `setRemoteDescription` of a remote answer succeeds. -/
  setRemoteAnswerOk : Bool
  deriving Repr, DecidableEq

/-- Messages the `Connection` writes to the signaling WebSocket
(`_sendWs` call sites). -/
inductive SentMsg where
  | register (roomId clientId : String) (authnMetadata : Option String)
  | pong
  | sdp (d : Sdp)
  | candidate (ice : String)
  deriving Repr, DecidableEq

/-- Observable effects of a handler run: a WebSocket send, a public callback
firing (kind plus its reason/metadata payload), a payload handed to an open
data channel, or the instantiation of a fresh engine peer connection. -/
inductive Output where
  | send (m : SentMsg)
  | fired (kind : String) (info : Option String)
  | dcSend (label : String) (payload : String)
  | engineCreated
  deriving Repr, DecidableEq

/-- A parsed signaling message (the tagged union over `message.type`). -/
inductive SigMessage where
  | ping
  | close
  | accept (authzMetadata : Option String)
  | reject
  | offer (sdp : String)
  | answer (sdp : String)
  | candidate (ice : Option String)
  | other (t : String)
  deriving Repr, DecidableEq

/-- The payload of a WebSocket `message` event: binary data, text that
`JSON.parse` rejects, or text that parses to a signaling message. -/
inductive WsData where
  | binary
  | malformed
  | text (m : SigMessage)
  deriving Repr, DecidableEq

/-- `new Connection(signalingUrl, roomId, options, debug)`: the constructor
body of `connection.js` (undefined fields are modelled as `none`). -/
def mkConnection (signalingUrl roomId : String) (options : ConnectionOptions)
    (debug : Bool) : Conn :=
  { debug := debug
    roomId := roomId
    signalingUrl := signalingUrl
    options := options
    stream := none
    remoteStreamId := none
    authnMetadata := none
    isNegotiating := false
    ws := none
    pc := none
    removeCodec := false
    dataChannels := []
    callbacks := { connect := 0, disconnect := 0, addstream := 0
                   removestream := 0, data := 0, extra := [] } }

/-- `_sendWs(message)`: the message goes out only while a WebSocket exists. -/
def sendWs (c : Conn) (m : SentMsg) : List Output :=
  match c.ws with
  | some _ => [Output.send m]
  | none => []

/-- `_findDataChannel(channelId)`: first registry entry with that label. -/
def findDataChannel (c : Conn) (channelId : String) : Option DataChannel :=
  c.dataChannels.find? (fun ch => ch.label = channelId)

/-- `_isVideoCodecSpecified()`. -/
def isVideoCodecSpecified (c : Conn) : Prop :=
  c.options.video.enabled = true ∧ c.options.video.codec ≠ none

instance (c : Conn) : Decidable (isVideoCodecSpecified c) := by
  unfold isVideoCodecSpecified; infer_instance

/-- The `closePeerConnection` promise inside `disconnect()`.  The Safari
branch closes and nulls the handle at once; otherwise an absent or already
closed handle resolves immediately; otherwise `close()` is issued — the
engine settles `signalingState` to `"closed"` synchronously — and the first
interval iteration observes it.  The source's reject branch (handle vanished
mid-poll) and its never-ending branch (state still not closed) are kept but
are unreachable in the sequential model. -/
def closePeerConnection (env : Env) (c : Conn) : Except String (Option PC) :=
  if env.browser = "safari" ∧ c.pc.isSome then
    Except.ok none
  else
    match c.pc with
    | none => Except.ok none
    | some pc =>
      if pc.signalingState = "closed" then
        Except.ok (some pc)
      else
        let pc2 : PC := { pc with signalingState := "closed" }
        match (some pc2 : Option PC) with
        | none => Except.error "PeerConnection Closing Error"
        | some pc3 =>
          if pc3.signalingState = "closed" then Except.ok (some pc3)
          else Except.error "PeerConnection close still pending"

/-- The `closeWebSocketConnection` promise inside `disconnect()`: an absent or
already CLOSED (readyState 3) socket resolves immediately; otherwise the
`onclose` handler is replaced by a no-op, `close()` is issued — the transport
confirms closure — and the first interval iteration observes readyState 3.
As above, the reject branch and the keep-polling branch are unreachable in
the sequential model. -/
def closeWebSocketConnection (c : Conn) : Except String (Option WS) :=
  match c.ws with
  | none => Except.ok none
  | some w =>
    if w.readyState = 3 then
      Except.ok (some w)
    else
      let w2 : WS := { w with oncloseTag := 2, readyState := 3 }
      match (some w2 : Option WS) with
      | none => Except.error "WebSocket Closing Error"
      | some w3 =>
        if w3.readyState = 3 then Except.ok (some w3)
        else Except.error "WebSocket close still pending"

/-- `disconnect()`: closes every registered data channel, awaits the two
close promises, stops local tracks, clears the transient fields and empties
the registry.  A rejection of either close promise propagates (the
`Promise.all` is awaited with no catch). -/
def disconnectE (env : Env) (c : Conn) : Except String Conn :=
  match closeWebSocketConnection c, closePeerConnection env c with
  | Except.ok _, Except.ok _ =>
    Except.ok { c with
      remoteStreamId := none
      stream := none
      authnMetadata := none
      isNegotiating := false
      ws := none
      pc := none
      removeCodec := false
      dataChannels := [] }
  | Except.error e, _ => Except.error e
  | _, Except.error e => Except.error e

/-- `await this.disconnect()` at the call sites inside message handlers.
`disconnectE` never returns an error (proved below), so the error fallback
keeping the state is never taken. -/
def disconnectRun (env : Env) (c : Conn) : Conn :=
  match disconnectE env c with
  | Except.ok c2 => c2
  | Except.error _ => c

/-- `connect(stream, authnMetadata)` up to the synchronous part of
`_signaling()`: refuses while a WebSocket or a peer connection exists
(leaving every field untouched), otherwise records the stream and the
authentication metadata and opens the WebSocket.  The `register` message is
sent later, from the socket's `onopen` event (`wsOnOpen`). -/
def connect (c : Conn) (stream : Option MediaStream)
    (authnMetadata : Option String) : Except String Conn :=
  if c.ws.isSome ∨ c.pc.isSome then
    Except.error "Connection Already Exists!"
  else
    let c2 := { c with stream := stream, authnMetadata := authnMetadata }
    match c2.ws with
    | some _ => Except.error "WebSocket Connnection Already Exists!"
    | none => Except.ok { c2 with ws := some { readyState := 0, oncloseTag := 0 } }

/-- The WebSocket `onopen` handler installed by `_signaling`: sends the
`register` message (with the metadata only when it is non-null) and installs
the `onmessage` handler. -/
def wsOnOpen (c : Conn) : Conn × List Output :=
  (c, sendWs c (SentMsg.register c.roomId c.options.clientId c.authnMetadata))

/-- The keys the constructor installs in the `_callbacks` table. -/
def eventKinds : List String :=
  ["connect", "disconnect", "addstream", "removestream", "data"]

/-- The property names a plain object inherits from `Object.prototype`, all
found by the `in` operator.  `__proto__` is inherited as an accessor:
assigning it rewires the object's prototype instead of storing a data
property, but it still answers reads with the assigned value and keeps the
five event slots untouched, which is what the model observes; the growth of
the prototype chain such an assignment causes is not tracked. -/
def objectPrototypeKeys : List String :=
  ["constructor", "hasOwnProperty", "isPrototypeOf", "propertyIsEnumerable",
   "toLocaleString", "toString", "valueOf",
   "__defineGetter__", "__defineSetter__", "__lookupGetter__", "__lookupSetter__",
   "__proto__"]

/-- JavaScript property assignment on the association list of own properties
added beyond the constructor keys: overwrite in place, else append. -/
def setExtra (l : List (String × Nat)) (kind : String) (cb : Nat) :
    List (String × Nat) :=
  match l with
  | [] => [(kind, cb)]
  | (k, v) :: t => if k = kind then (k, cb) :: t else (k, v) :: setExtra t kind cb

/-- The `kind in this._callbacks` guard of `on()`: true for the table's own
keys (the five constructor slots and any `extra` entry added later) and for
every name on the prototype chain (`Object.prototype`). -/
def callbacksHasKey (cbs : Callbacks) (kind : String) : Bool :=
  decide (kind ∈ eventKinds) || (cbs.extra.lookup kind).isSome
    || decide (kind ∈ objectPrototypeKeys)

/-- The assignment `this._callbacks[kind] = callback`: one of the five slots
when `kind` names it, otherwise a (possibly new) own entry under that key. -/
def setCallbackSlot (cbs : Callbacks) (kind : String) (cb : Nat) : Callbacks :=
  if kind = "connect" then { cbs with connect := cb }
  else if kind = "disconnect" then { cbs with disconnect := cb }
  else if kind = "addstream" then { cbs with addstream := cb }
  else if kind = "removestream" then { cbs with removestream := cb }
  else if kind = "data" then { cbs with data := cb }
  else { cbs with extra := setExtra cbs.extra kind cb }

/-- `on(kind, callback)`: assigns into the callback table when the `in`
guard passes, otherwise does nothing. -/
def onCallback (c : Conn) (kind : String) (cb : Nat) : Conn :=
  if callbacksHasKey c.callbacks kind = true then
    { c with callbacks := setCallbackSlot c.callbacks kind cb }
  else c

/-- Reads the callback stored in the table under a key: the five event
slots, then the entries added by later `on()` calls. -/
def getCallback (cbs : Callbacks) (kind : String) : Option Nat :=
  if kind = "connect" then some cbs.connect
  else if kind = "disconnect" then some cbs.disconnect
  else if kind = "addstream" then some cbs.addstream
  else if kind = "removestream" then some cbs.removestream
  else if kind = "data" then some cbs.data
  else cbs.extra.lookup kind

/-- `addDataChannel(channelId, options)`: rejects without an engine or when
the label is already registered; otherwise asks the engine for a channel and
installs its handlers.  The new channel only enters `_dataChannels` when its
`open` event fires (`dataChannelOnOpen`). -/
def addDataChannel (c : Conn) (channelId : String) : Except String Conn :=
  match c.pc with
  | none => Except.error "PeerConnection Does Not Ready"
  | some _ =>
    match findDataChannel c channelId with
    | some _ => Except.error "DataChannel Already Exists!"
    | none => Except.ok c

/-- The `onopen` handler that `addDataChannel` installs: pushes the (now
open) channel into the registry. -/
def dataChannelOnOpen (c : Conn) (dc : DataChannel) : Conn :=
  { c with dataChannels := c.dataChannels ++ [dc] }

/-- The `onclose`/`onerror` handlers that `addDataChannel` installs: drop
every entry carrying the channel's label. -/
def dataChannelOnClose (c : Conn) (channelId : String) : Conn :=
  { c with dataChannels := c.dataChannels.filter (fun dc => ¬ dc.label = channelId) }

/-- The `onmessage` handler that `addDataChannel` installs: forwards inbound
data to the public `data` callback tagged with the channel id. -/
def dataChannelOnMessage (c : Conn) (channelId : String) : Conn × List Output :=
  (c, [Output.fired "data" (some channelId)])

/-- `sendData(params, channelId)`: resolves and hands the payload to the
channel found for the label when that channel is open, rejects otherwise. -/
def sendData (c : Conn) (params : String) (channelId : String) :
    Except String (List Output) :=
  match findDataChannel c channelId with
  | some dc =>
    if dc.readyState = "open" then Except.ok [Output.dcSend channelId params]
    else Except.error "datachannel is not open"
  | none => Except.error "datachannel is not open"

/-- `_createPeerConnection()`: asks the engine for a fresh peer connection,
wires the local tracks/transceivers and installs the engine event handlers.
The only `Connection` field it touches is `_removeCodec`, set when a video
codec is requested but the engine lacks `setCodecPreferences` (this happens
both on the send branch and on the recvonly-transceiver branch). -/
def createPeerConnection (env : Env) (c : Conn) : Conn × PC :=
  let videoTrack : Bool :=
    match c.stream with
    | some s => s.hasVideoTrack
    | none => false
  let codecFallback : Bool :=
    if isVideoCodecSpecified c then
      if env.hasSetCodecPreferences = true then c.removeCodec else true
    else c.removeCodec
  let rc : Bool :=
    if videoTrack = true ∧ ¬ c.options.video.direction = "recvonly" then codecFallback
    else if c.options.video.enabled = true then codecFallback
    else c.removeCodec
  ({ c with removeCodec := rc },
   { signalingState := "stable", iceConnectionState := "new", localDescription := none })

/-- The local description produced inside `_sendOffer()`: the engine's offer,
whose SDP text the `removeCodec` path has filtered through the `utils.js`
string helper when a codec was requested without `setCodecPreferences`
support. -/
def offerDescription (env : Env) (c : Conn) : Sdp :=
  { type_ := "offer"
    sdp :=
      if c.removeCodec = true ∧ c.options.video.codec.isSome then env.strippedOfferSdp
      else env.createOfferSdp }

/-- `_sendOffer()`: without an engine it returns silently; otherwise it sets
the offer as local description and writes it to the signaling socket. -/
def sendOffer (env : Env) (c : Conn) : Conn × List Output :=
  match c.pc with
  | none => (c, [])
  | some pc =>
    let offer : Sdp := offerDescription env c
    let pc2 : PC := { pc with localDescription := some offer }
    ({ c with pc := some pc2 }, sendWs c (SentMsg.sdp offer))

/-- `_createAnswer()`: without an engine it returns silently; a failing
`createAnswer` lands in the local catch which tears down and fires
`disconnect` with reason `CREATE-ANSWER-ERROR`; otherwise the answer becomes
the local description and goes out on the signaling socket. -/
def createAnswer (env : Env) (c : Conn) : Conn × List Output :=
  match c.pc with
  | none => (c, [])
  | some pc =>
    if env.createAnswerOk = true then
      let answer : Sdp := { type_ := "answer", sdp := env.createAnswerSdp }
      let pc2 : PC := { pc with localDescription := some answer }
      ({ c with pc := some pc2 }, sendWs c (SentMsg.sdp answer))
    else
      (disconnectRun env c, [Output.fired "disconnect" (some "CREATE-ANSWER-ERROR")])

/-- `_setAnswer(sessionDescription)`: applies the remote description on the
existing engine; it has no catch of its own, so a missing engine (a null
`_pc` dereference) or an engine failure surfaces as a thrown error. -/
def setAnswer (env : Env) (c : Conn) : Except String Conn :=
  match c.pc with
  | none => Except.error "TypeError: this._pc is null"
  | some _ =>
    if env.setRemoteAnswerOk = true then Except.ok c
    else Except.error "setRemoteDescription failed"

/-- `_setOffer(sessionDescription)`: recreates the engine, applies the remote
offer and produces an answer; failures of the apply step land in the local
catch (teardown, `disconnect` with reason `SET-OFFER-ERROR`). -/
def setOffer (env : Env) (c : Conn) : Conn × List Output :=
  let p := createPeerConnection env c
  let c2 := { p.1 with pc := some p.2 }
  if env.setRemoteOfferOk = true then
    let r := createAnswer env c2
    (r.1, [Output.engineCreated] ++ r.2)
  else
    (disconnectRun env c2,
     [Output.engineCreated] ++ [Output.fired "disconnect" (some "SET-OFFER-ERROR")])

/-- The engine's `oniceconnectionstatechange` handler installed by
`_createPeerConnection`: `"connected"` clears the negotiation flag,
`"failed"` tears down and fires `disconnect` with reason
`ICE-CONNECTION-STATE-FAILED`, every other state is only logged. -/
def onIceConnectionStateChange (env : Env) (c : Conn) (state : String) :
    Conn × List Output :=
  if state = "connected" then
    ({ c with isNegotiating := false }, [])
  else if state = "failed" then
    (disconnectRun env c, [Output.fired "disconnect" (some "ICE-CONNECTION-STATE-FAILED")])
  else
    (c, [])

/-- The engine's `onicecandidate` handler: a discovered local candidate goes
out as a `candidate` message; the end-of-candidates event is only logged. -/
def onIceCandidate (c : Conn) (candidate : Option String) : Conn × List Output :=
  match candidate with
  | some ice => (c, sendWs c (SentMsg.candidate ice))
  | none => (c, [])

/-- Result of running the WebSocket `onmessage` handler: the new state, the
observable outputs in order, and—when the branch settles the `_signaling`
promise—the outcome delivered to the pending `connect()` call. -/
structure HandleResult where
  conn : Conn
  outputs : List Output
  settled : Option (Except String Unit)
  deriving Repr

/-- The `catch` arm of the `onmessage` handler: teardown plus a `disconnect`
callback with reason `SIGNALING-ERROR`. -/
def signalingErrorResult (env : Env) (c : Conn) : HandleResult :=
  { conn := disconnectRun env c
    outputs := [Output.fired "disconnect" (some "SIGNALING-ERROR")]
    settled := none }

/-- The `if (!this._pc) this._pc = this._createPeerConnection()` line of the
`accept` branch: ensures an engine exists, reporting whether one was
instantiated. -/
def acceptEnsurePc (env : Env) (c : Conn) : Conn × List Output :=
  match c.pc with
  | none =>
    let p := createPeerConnection env c
    ({ p.1 with pc := some p.2 }, [Output.engineCreated])
  | some _ => (c, [])

/-- The tail of the `accept` branch once the default data channel has been
opened: sends the offer, fires the public `connect` callback with the
server's authorization metadata, reinstalls `onclose` and resolves the
pending `connect()`. -/
def acceptFinish (env : Env) (c2 : Conn) (authzMetadata : Option String) :
    HandleResult :=
  let r := sendOffer env c2
  let c3 : Conn :=
    match r.1.ws with
    | some w => { r.1 with ws := some { w with oncloseTag := 1 } }
    | none => r.1
  { conn := c3
    outputs := r.2 ++ [Output.fired "connect" authzMetadata]
    settled := some (Except.ok ()) }

/-- The `accept` branch of the `onmessage` handler: creates the engine if
none exists, opens the default `dataChannel`, sends the offer, fires the
public `connect` callback and resolves the pending `connect()`.  A rejection
of `addDataChannel` (label already registered) is caught by the handler's
`catch`. -/
def handleAccept (env : Env) (c : Conn) (authzMetadata : Option String) :
    HandleResult :=
  let e := acceptEnsurePc env c
  match addDataChannel e.1 "dataChannel" with
  | Except.error _ =>
    let r := signalingErrorResult env e.1
    { conn := r.conn, outputs := e.2 ++ r.outputs, settled := none }
  | Except.ok c2 =>
    let r := acceptFinish env c2 authzMetadata
    { conn := r.conn, outputs := e.2 ++ r.outputs, settled := r.settled }

/-- The dispatch on `message.type` inside the `onmessage` handler.  The
`close` branch invokes `this._callbacks.close(event)`, a key the callback
table never contains, so the call throws and lands in the `catch` arm.
The `candidate` branch only touches the engine (`addIceCandidate` failures
are swallowed with a log line). -/
def handleMessage (env : Env) (c : Conn) (m : SigMessage) : HandleResult :=
  match m with
  | SigMessage.ping =>
    { conn := c, outputs := sendWs c SentMsg.pong, settled := none }
  | SigMessage.close =>
    signalingErrorResult env c
  | SigMessage.accept authz =>
    handleAccept env c authz
  | SigMessage.reject =>
    { conn := disconnectRun env c
      outputs := [Output.fired "disconnect" (some "REJECTED")]
      settled := some (Except.error "REJECTED") }
  | SigMessage.offer _ =>
    let r := setOffer env c
    { conn := r.1, outputs := r.2, settled := none }
  | SigMessage.answer _ =>
    match setAnswer env c with
    | Except.ok c2 => { conn := c2, outputs := [], settled := none }
    | Except.error _ => signalingErrorResult env c
  | SigMessage.candidate _ =>
    { conn := c, outputs := [], settled := none }
  | SigMessage.other _ =>
    { conn := c, outputs := [], settled := none }

/-- The WebSocket `onmessage` handler: non-string payloads return
immediately, text that fails `JSON.parse` throws into the `catch` arm, and
parsed messages are dispatched on their `type`. -/
def onMessage (env : Env) (c : Conn) (d : WsData) : HandleResult :=
  match d with
  | WsData.binary => { conn := c, outputs := [], settled := none }
  | WsData.malformed => signalingErrorResult env c
  | WsData.text m => handleMessage env c m

/-- The engine's `ondatachannel` handler (`_onDataChannel`): remote-initiated
channels are registered when their label is new; a stale entry with the same
label is replaced by the fresh handle. -/
def onDataChannel (c : Conn) (dc : DataChannel) : Conn :=
  match c.pc with
  | none => c
  | some _ =>
    if dc.label.length < 1 then c
    else
      match findDataChannel c dc.label with
      | none => { c with dataChannels := c.dataChannels ++ [dc] }
      | some _ =>
        { c with dataChannels :=
            c.dataChannels.map (fun ch => if ch.label = dc.label then dc else ch) }

/-- `Idle`: the pre-`connect` state — no WebSocket, no peer connection, no
data channels, and every transient field at its constructor value. -/
def isIdle (c : Conn) : Prop :=
  c.ws = none ∧ c.pc = none ∧ c.dataChannels = [] ∧ c.stream = none ∧
    c.remoteStreamId = none ∧ c.authnMetadata = none ∧
    c.isNegotiating = false ∧ c.removeCodec = false

instance (c : Conn) : Decidable (isIdle c) := by
  unfold isIdle; infer_instance

/-- The outbound session descriptions of type `"offer"` among a handler's
outputs. -/
def offerSends (outs : List Output) : List Sdp :=
  outs.filterMap (fun o =>
    match o with
    | Output.send (SentMsg.sdp d) => if d.type_ = "offer" then some d else none
    | _ => none)

/-- How many fresh engine peer connections a handler run instantiated. -/
def engineCreations (outs : List Output) : Nat :=
  (outs.filter (fun o => o = Output.engineCreated)).length

/-- A representative option record (the `defaultOptions` of `index.js`). -/
def defaultOptions : ConnectionOptions :=
  { audio := { direction := "sendrecv", enabled := true, codec := none }
    video := { direction := "sendrecv", enabled := true, codec := none }
    clientId := "client0"
    iceServers := ["stun:stun.l.google.com:19302"] }

/-- A freshly constructed connection. -/
def conn0 : Conn := mkConnection "wss://example.com/signaling" "room0" defaultOptions false

/-- The connection right after `connect()` opened the WebSocket and the
`register` message went out, while no reply has arrived yet. -/
def registeredConn : Conn :=
  { conn0 with
    stream := none
    authnMetadata := none
    ws := some { readyState := 1, oncloseTag := 0 } }

/-- A representative environment: a non-Safari browser whose engine supports
codec preferences and succeeds at every negotiation step. -/
def env0 : Env :=
  { browser := "chrome"
    createOfferSdp := "v=0 offer"
    strippedOfferSdp := "v=0 offer-stripped"
    createAnswerSdp := "v=0 answer"
    hasSetCodecPreferences := true
    setRemoteOfferOk := true
    createAnswerOk := true
    setRemoteAnswerOk := true }

/-- `disconnect()` always resolves, and its result is the input state with
the transient fields cleared, the registry emptied and both handles nulled. -/
theorem disconnectE_ok (env : Env) (c : Conn) :
    disconnectE env c = Except.ok
      { c with remoteStreamId := none, stream := none, authnMetadata := none,
               isNegotiating := false, ws := none, pc := none,
               removeCodec := false, dataChannels := [] } := by
  have hpc : ∃ r, closePeerConnection env c = Except.ok r := by
    unfold closePeerConnection
    rcases c.pc with _ | pc
    · dsimp only
      split_ifs <;> exact ⟨_, rfl⟩
    · dsimp only
      split_ifs <;> first | exact ⟨_, rfl⟩ | simp_all
  have hws : ∃ r, closeWebSocketConnection c = Except.ok r := by
    unfold closeWebSocketConnection
    rcases c.ws with _ | w
    · exact ⟨_, rfl⟩
    · dsimp only
      split_ifs <;> first | exact ⟨_, rfl⟩ | simp_all
  obtain ⟨r1, h1⟩ := hpc
  obtain ⟨r2, h2⟩ := hws
  unfold disconnectE
  rw [h1, h2]

/-- `disconnectRun` computes the cleared state. -/
theorem disconnectRun_eq (env : Env) (c : Conn) :
    disconnectRun env c =
      { c with remoteStreamId := none, stream := none, authnMetadata := none,
               isNegotiating := false, ws := none, pc := none,
               removeCodec := false, dataChannels := [] } := by
  unfold disconnectRun
  rw [disconnectE_ok]

/-- C1: `disconnect()` is idempotent and never raises an error — from every
state it resolves; tearing down the resulting state resolves to the same
state; and from `Idle` it leaves the state unchanged. -/
theorem disconnect_idempotent_and_total (env : Env) (c : Conn) :
    ∃ c2, disconnectE env c = Except.ok c2 ∧
      disconnectE env c2 = Except.ok c2 ∧ (isIdle c → c2 = c) := by
  refine ⟨_, disconnectE_ok env c, ?_, ?_⟩
  · rw [disconnectE_ok]
  · intro h
    obtain ⟨h1, h2, h3, h4, h5, h6, h7, h8⟩ := h
    cases c
    simp_all

/-- Witness for C1: the idle hypothesis is satisfiable — on a freshly
constructed connection, `disconnect()` resolves and is a no-op. -/
theorem disconnect_idempotent_and_total_witness :
    isIdle conn0 ∧
      ∃ c2, disconnectE env0 conn0 = Except.ok c2 ∧
        disconnectE env0 c2 = Except.ok c2 ∧ c2 = conn0 := by
  refine ⟨by decide, ?_⟩
  obtain ⟨c2, h1, h2, h3⟩ := disconnect_idempotent_and_total env0 conn0
  exact ⟨c2, h1, h2, h3 (by decide)⟩

/-- C7: whatever state teardown starts from, it completes with an empty
data-channel registry and with the engine and signaling-channel references
cleared. -/
theorem teardown_clears_registry_and_references (env : Env) (c : Conn) :
    ∃ c2, disconnectE env c = Except.ok c2 ∧
      c2.dataChannels = [] ∧ c2.pc = none ∧ c2.ws = none :=
  ⟨_, disconnectE_ok env c, rfl, rfl, rfl⟩

/-- C2: while a signaling channel or an engine exists, a further `connect()`
fails with the already-connected error; the `Except.error` result carries no
successor state, so no field changes and nothing is sent. -/
theorem connect_while_active_fails (c : Conn) (stream : Option MediaStream)
    (authnMetadata : Option String) (h : c.ws.isSome = true ∨ c.pc.isSome = true) :
    connect c stream authnMetadata = Except.error "Connection Already Exists!" := by
  unfold connect
  rcases h with h | h <;> simp [h]

/-- Witness for C2: a second `connect()` on the registered connection is
refused. -/
theorem connect_while_active_fails_witness :
    (registeredConn.ws.isSome = true ∨ registeredConn.pc.isSome = true) ∧
      connect registeredConn none none = Except.error "Connection Already Exists!" :=
  ⟨Or.inl (by decide),
   connect_while_active_fails registeredConn none none (Or.inl (by decide))⟩

/-- C10: a binary WebSocket payload makes the message handler return
immediately: same state, no outputs, no settlement of the pending
`connect()`. -/
theorem binary_payload_ignored (env : Env) (c : Conn) :
    onMessage env c WsData.binary = { conn := c, outputs := [], settled := none } :=
  rfl

/-- C6: handling a `reject` settles the pending `connect()` with the
`REJECTED` failure, fires exactly the `disconnect` callback tagged
`REJECTED`, sends no offer, instantiates no engine, and ends with no peer
connection. -/
theorem reject_fails_connect_without_offer_or_engine (env : Env) (c : Conn) :
    (handleMessage env c SigMessage.reject).settled
        = some (Except.error "REJECTED") ∧
      (handleMessage env c SigMessage.reject).outputs
        = [Output.fired "disconnect" (some "REJECTED")] ∧
      offerSends (handleMessage env c SigMessage.reject).outputs = [] ∧
      engineCreations (handleMessage env c SigMessage.reject).outputs = 0 ∧
      (handleMessage env c SigMessage.reject).conn.pc = none := by
  refine ⟨rfl, rfl, rfl, rfl, ?_⟩
  simp [handleMessage, disconnectRun_eq]

/-- C4, evaluated at the failing input: a `close` signaling message lands in
the catch arm (the handler dereferences the nonexistent `close` callback),
so the connection is torn down with the `disconnect` callback tagged
`SIGNALING-ERROR` — the protocol-error outcome — and not with a
connection-closed tag. -/
theorem close_message_yields_signaling_error :
    (handleMessage env0 registeredConn SigMessage.close).outputs
        = [Output.fired "disconnect" (some "SIGNALING-ERROR")] ∧
      (handleMessage env0 registeredConn SigMessage.close).conn.ws = none ∧
      (handleMessage env0 registeredConn SigMessage.close).conn.pc = none := by
  refine ⟨rfl, ?_, ?_⟩ <;>
    simp [handleMessage, signalingErrorResult, disconnectRun_eq]

/-- A successful `addDataChannel` does not change the connection state (the
channel enters the registry only when its `open` event fires). -/
theorem addDataChannel_ok_eq {c c2 : Conn} {l : String}
    (h : addDataChannel c l = Except.ok c2) : c2 = c := by
  unfold addDataChannel at h
  rcases hpc : c.pc with _ | pc <;> rw [hpc] at h
  · cases h
  · rcases hf : findDataChannel c l with _ | dc <;> rw [hf] at h
    · cases h; rfl
    · cases h

/-- A successful `_setAnswer` does not change the connection state. -/
theorem setAnswer_ok_eq {env : Env} {c c2 : Conn}
    (h : setAnswer env c = Except.ok c2) : c2 = c := by
  unfold setAnswer at h
  rcases hpc : c.pc with _ | pc <;> rw [hpc] at h
  · cases h
  · by_cases hr : env.setRemoteAnswerOk = true
    · rw [if_pos hr] at h; cases h; rfl
    · rw [if_neg hr] at h; cases h

/-- `acceptEnsurePc` touches only `_pc` and `_removeCodec`. -/
theorem acceptEnsurePc_isNegotiating (env : Env) (c : Conn) :
    (acceptEnsurePc env c).1.isNegotiating = c.isNegotiating := by
  unfold acceptEnsurePc
  rcases hpc : c.pc with _ | pc <;> rfl

/-- `_sendOffer` touches only the engine's state. -/
theorem sendOffer_isNegotiating (env : Env) (c : Conn) :
    (sendOffer env c).1.isNegotiating = c.isNegotiating := by
  unfold sendOffer
  rcases hpc : c.pc with _ | pc <;> rfl

/-- The `accept` branch never raises the negotiation flag. -/
theorem handleAccept_isNegotiating (env : Env) (c : Conn) (authz : Option String)
    (h : c.isNegotiating = false) :
    (handleAccept env c authz).conn.isNegotiating = false := by
  unfold handleAccept acceptFinish
  dsimp only
  have he : (acceptEnsurePc env c).1.isNegotiating = false := by
    rw [acceptEnsurePc_isNegotiating]; exact h
  rcases ha : addDataChannel (acceptEnsurePc env c).1 "dataChannel" with e | c2 <;>
    dsimp only
  · simp [signalingErrorResult, disconnectRun_eq]
  · have hc2 : c2.isNegotiating = false := by rw [addDataChannel_ok_eq ha]; exact he
    have hs : (sendOffer env c2).1.isNegotiating = false := by
      rw [sendOffer_isNegotiating]; exact hc2
    rcases hw : (sendOffer env c2).1.ws with _ | w <;> simp only [hw] <;> exact hs

/-- The `offer` branch never raises the negotiation flag. -/
theorem setOffer_isNegotiating (env : Env) (c : Conn)
    (h : c.isNegotiating = false) :
    (setOffer env c).1.isNegotiating = false := by
  unfold setOffer createAnswer
  dsimp only
  split_ifs <;> simp [disconnectRun_eq, h, createPeerConnection]

/-- No `onmessage` branch raises the negotiation flag: a false flag stays
false across every incoming payload (teardown paths force it false and all
other paths leave it untouched). -/
theorem onMessage_preserves_negotiation_flag (env : Env) (c : Conn) (d : WsData)
    (h : c.isNegotiating = false) :
    (onMessage env c d).conn.isNegotiating = false := by
  rcases d with _ | _ | m
  · exact h
  · simp [onMessage, signalingErrorResult, disconnectRun_eq]
  · cases m with
    | ping => exact h
    | close => simp [onMessage, handleMessage, signalingErrorResult, disconnectRun_eq]
    | accept authz => exact handleAccept_isNegotiating env c authz h
    | reject => simp [onMessage, handleMessage, disconnectRun_eq]
    | offer s => exact setOffer_isNegotiating env c h
    | answer s =>
      show (match setAnswer env c with
        | Except.ok c2 => ({ conn := c2, outputs := [], settled := none } : HandleResult)
        | Except.error _ => signalingErrorResult env c).conn.isNegotiating = false
      rcases ha : setAnswer env c with e | c2 <;> dsimp only
      · simp [signalingErrorResult, disconnectRun_eq]
      · rw [setAnswer_ok_eq ha]; exact h
    | candidate i => exact h
    | other t => exact h

/-- C3, refuted at a concrete input: handling `accept` on the freshly
registered connection starts an offer/answer cycle — an offer goes out — yet
`_isNegotiating` is still `false` afterwards; no code path in
`connection.js` ever assigns it `true`. -/
theorem negotiation_flag_not_raised_cex :
    offerSends (handleMessage env0 registeredConn (SigMessage.accept none)).outputs ≠ []
      ∧ (handleMessage env0 registeredConn
          (SigMessage.accept none)).conn.isNegotiating = false := by
  constructor
  · decide
  · decide

/-- C3 (amended): the negotiation flag is never raised: starting an
offer/answer cycle (or handling any other signaling payload) keeps a false
flag false, and the engine's "connected" report forces it to false, so the
flag ends `false` in the register → accept → answer → connected scenario. -/
theorem negotiation_flag_stays_false (env : Env) (c : Conn) (d : WsData) :
    (c.isNegotiating = false → (onMessage env c d).conn.isNegotiating = false) ∧
      (onIceConnectionStateChange env c "connected").1.isNegotiating = false := by
  refine ⟨onMessage_preserves_negotiation_flag env c d, ?_⟩
  simp [onIceConnectionStateChange]

/-- Witness for C3 (amended): the scenario instance — the flag is false
after `accept` handling and false after the engine reports "connected". -/
theorem negotiation_flag_stays_false_witness :
    registeredConn.isNegotiating = false ∧
      (onMessage env0 registeredConn
        (WsData.text (SigMessage.accept none))).conn.isNegotiating = false ∧
      (onIceConnectionStateChange env0 registeredConn "connected").1.isNegotiating
        = false := by
  obtain ⟨h1, h2⟩ := negotiation_flag_stays_false env0 registeredConn
    (WsData.text (SigMessage.accept none))
  exact ⟨rfl, h1 rfl, h2⟩

/-- `acceptEnsurePc` leaves the WebSocket untouched. -/
theorem acceptEnsurePc_ws (env : Env) (c : Conn) :
    (acceptEnsurePc env c).1.ws = c.ws := by
  unfold acceptEnsurePc
  rcases hpc : c.pc with _ | pc <;> rfl

/-- `acceptEnsurePc` leaves the data-channel registry untouched. -/
theorem acceptEnsurePc_dataChannels (env : Env) (c : Conn) :
    (acceptEnsurePc env c).1.dataChannels = c.dataChannels := by
  unfold acceptEnsurePc
  rcases hpc : c.pc with _ | pc <;> rfl

/-- After `acceptEnsurePc` an engine exists. -/
theorem acceptEnsurePc_pc (env : Env) (c : Conn) :
    ∃ p, (acceptEnsurePc env c).1.pc = some p := by
  unfold acceptEnsurePc
  rcases hpc : c.pc with _ | pc
  · exact ⟨_, rfl⟩
  · exact ⟨pc, hpc⟩

/-- `acceptEnsurePc` reports no outbound offer. -/
theorem offerSends_acceptEnsurePc (env : Env) (c : Conn) :
    offerSends (acceptEnsurePc env c).2 = [] := by
  unfold acceptEnsurePc
  rcases hpc : c.pc with _ | pc <;> rfl

/-- On an `accept` with the socket present and the default label unused, the
handler's output trace is: engine bookkeeping, then exactly one outbound
offer, then the public `connect` callback. -/
theorem handleAccept_outputs (env : Env) (c : Conn) (authz : Option String)
    (w : WS) (hw : c.ws = some w)
    (hdc : findDataChannel c "dataChannel" = none) :
    (handleAccept env c authz).outputs
      = (acceptEnsurePc env c).2
          ++ [Output.send (SentMsg.sdp (offerDescription env (acceptEnsurePc env c).1)),
              Output.fired "connect" authz] := by
  obtain ⟨p, hp⟩ := acceptEnsurePc_pc env c
  have hws1 : (acceptEnsurePc env c).1.ws = some w := by
    rw [acceptEnsurePc_ws]; exact hw
  have hdc1 : findDataChannel (acceptEnsurePc env c).1 "dataChannel" = none := by
    unfold findDataChannel at *
    rw [acceptEnsurePc_dataChannels]; exact hdc
  have hadd : addDataChannel (acceptEnsurePc env c).1 "dataChannel"
      = Except.ok (acceptEnsurePc env c).1 := by
    unfold addDataChannel
    rw [hp, hdc1]
  unfold handleAccept
  dsimp only
  rw [hadd]
  dsimp only
  unfold acceptFinish sendOffer
  rw [hp]
  dsimp only
  simp [sendWs, hws1]

/-- `offerSends` distributes over concatenation of output traces. -/
theorem offerSends_append (a b : List Output) :
    offerSends (a ++ b) = offerSends a ++ offerSends b := by
  unfold offerSends
  exact List.filterMap_append a b _

/-- C5: on a `connect()` attempt with the signaling socket present and the
default data-channel label not yet registered, handling `accept` fires the
public `connect` callback last, and exactly one outbound offer is sent
before it. -/
theorem accept_single_offer_before_connect (env : Env) (c : Conn)
    (authz : Option String) (w : WS) (hw : c.ws = some w)
    (hdc : findDataChannel c "dataChannel" = none) :
    ∃ pre d,
      (handleAccept env c authz).outputs = pre ++ [Output.fired "connect" authz] ∧
        offerSends pre = [d] ∧
        offerSends (handleAccept env c authz).outputs = [d] := by
  refine ⟨(acceptEnsurePc env c).2
      ++ [Output.send (SentMsg.sdp (offerDescription env (acceptEnsurePc env c).1))],
    offerDescription env (acceptEnsurePc env c).1, ?_, ?_, ?_⟩
  · rw [handleAccept_outputs env c authz w hw hdc]
    simp
  · rw [offerSends_append, offerSends_acceptEnsurePc]
    simp [offerSends, offerDescription]
  · rw [handleAccept_outputs env c authz w hw hdc, offerSends_append,
      offerSends_acceptEnsurePc]
    simp [offerSends, offerDescription]

/-- Witness for C5: on the registered connection, `accept` handling sends
one offer and then fires `connect`. -/
theorem accept_single_offer_before_connect_witness :
    registeredConn.ws = some { readyState := 1, oncloseTag := 0 } ∧
      findDataChannel registeredConn "dataChannel" = none ∧
      ∃ pre d,
        (handleAccept env0 registeredConn none).outputs
            = pre ++ [Output.fired "connect" none] ∧
          offerSends pre = [d] ∧
          offerSends (handleAccept env0 registeredConn none).outputs = [d] :=
  ⟨rfl, rfl,
   accept_single_offer_before_connect env0 registeredConn none _ rfl rfl⟩

/-- With labels pairwise distinct, `find?` on a label locates the member
entry carrying it. -/
theorem find?_label_of_nodup {dcs : List DataChannel}
    (h : (dcs.map DataChannel.label).Nodup) {dc : DataChannel} (hm : dc ∈ dcs) :
    dcs.find? (fun ch => ch.label = dc.label) = some dc := by
  induction dcs with
  | nil => cases hm
  | cons a tl ih =>
    rw [List.map_cons, List.nodup_cons] at h
    rcases List.mem_cons.mp hm with rfl | hm2
    · rw [List.find?_cons_of_pos]
      simp
    · have hne : ¬ a.label = dc.label := by
        intro he
        exact h.1 (he ▸ List.mem_map_of_mem DataChannel.label hm2)
      rw [List.find?_cons_of_neg]
      · exact ih h.2 hm2
      · simp [hne]

/-- C8: `sendData` rejects with the channel-not-open error whenever no
registered channel with the label is open; with distinct labels it succeeds
and forwards the payload whenever an open channel with the label is
registered; and it succeeds right after a fresh channel's `open` callback
pushed it into the registry. -/
theorem sendData_open_contract (c : Conn) (params channelId : String) :
    ((∀ dc ∈ c.dataChannels, dc.label = channelId → ¬ dc.readyState = "open") →
        sendData c params channelId = Except.error "datachannel is not open") ∧
      ((c.dataChannels.map DataChannel.label).Nodup →
        ∀ dc ∈ c.dataChannels, dc.label = channelId → dc.readyState = "open" →
          sendData c params channelId
            = Except.ok [Output.dcSend channelId params]) ∧
      ((∀ dc ∈ c.dataChannels, ¬ dc.label = channelId) →
        sendData (dataChannelOnOpen c { label := channelId, readyState := "open" })
            params channelId
          = Except.ok [Output.dcSend channelId params]) := by
  refine ⟨?_, ?_, ?_⟩
  · intro hno
    unfold sendData findDataChannel
    rcases hf : c.dataChannels.find? (fun ch => ch.label = channelId) with _ | dc
    · rw [hf]
    · have hl : dc.label = channelId := by
        have := List.find?_some hf
        simpa using this
      have hmem : dc ∈ c.dataChannels := List.mem_of_find?_eq_some hf
      rw [hf]
      dsimp only
      rw [if_neg (hno dc hmem hl)]
  · intro hnodup dc hmem hl hopen
    unfold sendData findDataChannel
    rw [← hl, find?_label_of_nodup hnodup hmem]
    dsimp only
    rw [if_pos hopen, hl]
  · intro hno
    unfold sendData findDataChannel dataChannelOnOpen
    dsimp only
    rw [List.find?_append]
    have h1 : c.dataChannels.find? (fun ch => ch.label = channelId) = none := by
      rw [List.find?_eq_none]
      intro x hx
      simp [hno x hx]
    rw [h1]
    simp

/-- Witness for C8: with an empty registry every clause's hypothesis holds —
sending fails, and sending right after the open callback succeeds. -/
theorem sendData_open_contract_witness :
    (∀ dc ∈ conn0.dataChannels, dc.label = "dataChannel" → ¬ dc.readyState = "open") ∧
      sendData conn0 "payload" "dataChannel" = Except.error "datachannel is not open" ∧
      (∀ dc ∈ conn0.dataChannels, ¬ dc.label = "dataChannel") ∧
      sendData (dataChannelOnOpen conn0 { label := "dataChannel", readyState := "open" })
          "payload" "dataChannel"
        = Except.ok [Output.dcSend "dataChannel" "payload"] := by
  obtain ⟨h1, _, h3⟩ := sendData_open_contract conn0 "payload" "dataChannel"
  exact ⟨by decide, h1 (by decide), by decide, h3 (by decide)⟩

/-- Overwriting a key with `setExtra` makes that key read back the new
callback. -/
theorem lookup_setExtra_self (l : List (String × Nat)) (kind : String) (cb : Nat) :
    (setExtra l kind cb).lookup kind = some cb := by
  induction l with
  | nil => simp [setExtra, List.lookup]
  | cons a t ih =>
    obtain ⟨k, v⟩ := a
    unfold setExtra
    by_cases h : k = kind
    · rw [if_pos h]
      simp [List.lookup, h]
    · rw [if_neg h]
      have hb : (kind == k) = false := beq_eq_false_iff_ne.mpr fun he => h he.symm
      simp [List.lookup, hb, ih]

/-- `setExtra` leaves every other key's reading unchanged. -/
theorem lookup_setExtra_ne {l : List (String × Nat)} {kind k : String} (cb : Nat)
    (h : ¬ k = kind) :
    (setExtra l kind cb).lookup k = l.lookup k := by
  induction l with
  | nil =>
    have hb : (k == kind) = false := beq_eq_false_iff_ne.mpr h
    simp [setExtra, List.lookup, hb]
  | cons a t ih =>
    obtain ⟨k2, v⟩ := a
    unfold setExtra
    by_cases h2 : k2 = kind
    · rw [if_pos h2]
      have hb : (k == k2) = false :=
        beq_eq_false_iff_ne.mpr fun he => h (he.trans h2)
      simp [List.lookup, hb]
    · rw [if_neg h2]
      by_cases h3 : k2 = k
      · have hb : (k == k2) = true := beq_iff_eq.mpr h3.symm
        simp [List.lookup, hb]
      · have hb : (k == k2) = false := beq_eq_false_iff_ne.mpr fun he => h3 he.symm
        simp [List.lookup, hb, ih]

/-- C9, refuted at a concrete input: `"toString"` is none of the five event
kinds, yet the `in` operator of JavaScript finds it on `Object.prototype`, so
`on("toString", cb)` assigns into the callback table instead of being
silently ignored. -/
theorem on_unknown_kind_not_ignored_cex :
    ¬ "toString" ∈ eventKinds ∧ onCallback conn0 "toString" 7 ≠ conn0 := by
  refine ⟨by decide, by decide⟩

/-- C9 (amended): `on(kind, callback)` keeps one subscriber per event kind —
for each of the five kinds the call replaces exactly that slot, leaving the
other slots and every other `Connection` field unchanged; a kind the `in`
guard does not find (neither an own key of the table nor a name inherited
from `Object.prototype`) is silently ignored; a kind the guard finds only on
the prototype chain is instead assigned into the table under that key, again
leaving the five event slots and every other `Connection` field unchanged. -/
theorem on_single_subscriber_per_kind (c : Conn) (kind : String) (cb : Nat) :
    (kind ∈ eventKinds →
      getCallback (onCallback c kind cb).callbacks kind = some cb ∧
        (∀ k, ¬ k = kind →
          getCallback (onCallback c kind cb).callbacks k = getCallback c.callbacks k) ∧
        { onCallback c kind cb with callbacks := c.callbacks } = c) ∧
      (callbacksHasKey c.callbacks kind = false → onCallback c kind cb = c) ∧
      (¬ kind ∈ eventKinds → callbacksHasKey c.callbacks kind = true →
        getCallback (onCallback c kind cb).callbacks kind = some cb ∧
          (∀ k, ¬ k = kind →
            getCallback (onCallback c kind cb).callbacks k = getCallback c.callbacks k) ∧
          { onCallback c kind cb with callbacks := c.callbacks } = c) := by
  refine ⟨?_, ?_, ?_⟩
  · intro hk
    simp only [eventKinds, List.mem_cons, List.mem_singleton, List.not_mem_nil,
      or_false] at hk
    rcases hk with rfl | rfl | rfl | rfl | rfl
    · refine ⟨rfl, ?_, rfl⟩
      intro k hkk
      show getCallback { c.callbacks with connect := cb } k = getCallback c.callbacks k
      unfold getCallback
      rw [if_neg hkk, if_neg hkk]
    · refine ⟨rfl, ?_, rfl⟩
      intro k hkk
      show getCallback { c.callbacks with disconnect := cb } k = getCallback c.callbacks k
      unfold getCallback
      rw [if_neg hkk, if_neg hkk]
    · refine ⟨rfl, ?_, rfl⟩
      intro k hkk
      show getCallback { c.callbacks with addstream := cb } k = getCallback c.callbacks k
      unfold getCallback
      rw [if_neg hkk, if_neg hkk]
    · refine ⟨rfl, ?_, rfl⟩
      intro k hkk
      show getCallback { c.callbacks with removestream := cb } k = getCallback c.callbacks k
      unfold getCallback
      rw [if_neg hkk, if_neg hkk]
    · refine ⟨rfl, ?_, rfl⟩
      intro k hkk
      show getCallback { c.callbacks with data := cb } k = getCallback c.callbacks k
      unfold getCallback
      rw [if_neg hkk, if_neg hkk]
  · intro hk
    unfold onCallback
    rw [hk]
    rfl
  · intro hk5 hkey
    have h5 : ¬ kind = "connect" ∧ ¬ kind = "disconnect" ∧ ¬ kind = "addstream" ∧
        ¬ kind = "removestream" ∧ ¬ kind = "data" := by
      refine ⟨?_, ?_, ?_, ?_, ?_⟩ <;> intro he <;> exact hk5 (by rw [he]; decide)
    have hset : setCallbackSlot c.callbacks kind cb
        = { c.callbacks with extra := setExtra c.callbacks.extra kind cb } := by
      unfold setCallbackSlot
      rw [if_neg h5.1, if_neg h5.2.1, if_neg h5.2.2.1, if_neg h5.2.2.2.1,
        if_neg h5.2.2.2.2]
    have hoc : onCallback c kind cb
        = { c with callbacks :=
              { c.callbacks with extra := setExtra c.callbacks.extra kind cb } } := by
      unfold onCallback
      rw [hkey, if_pos rfl, hset]
    refine ⟨?_, ?_, ?_⟩
    · rw [hoc]
      show getCallback
          { c.callbacks with extra := setExtra c.callbacks.extra kind cb } kind = some cb
      unfold getCallback
      rw [if_neg h5.1, if_neg h5.2.1, if_neg h5.2.2.1, if_neg h5.2.2.2.1,
        if_neg h5.2.2.2.2]
      exact lookup_setExtra_self _ _ _
    · intro k hkk
      rw [hoc]
      show getCallback { c.callbacks with extra := setExtra c.callbacks.extra kind cb } k
          = getCallback c.callbacks k
      unfold getCallback
      split_ifs <;> first | rfl | exact lookup_setExtra_ne cb hkk
    · rw [hoc]

/-- Witness for C9 (amended): `"data"` replaces its slot; `"close"` (found
nowhere) is ignored; `"toString"` (found on `Object.prototype`) is assigned
into the table. -/
theorem on_single_subscriber_per_kind_witness :
    ("data" ∈ eventKinds ∧
        getCallback (onCallback conn0 "data" 7).callbacks "data" = some 7) ∧
      (callbacksHasKey conn0.callbacks "close" = false ∧
        onCallback conn0 "close" 7 = conn0) ∧
      (¬ "toString" ∈ eventKinds ∧ callbacksHasKey conn0.callbacks "toString" = true ∧
        getCallback (onCallback conn0 "toString" 7).callbacks "toString" = some 7) := by
  refine ⟨⟨by decide, ?_⟩, ⟨by decide, ?_⟩, ⟨by decide, by decide, ?_⟩⟩
  · exact ((on_single_subscriber_per_kind conn0 "data" 7).1 (by decide)).1
  · exact (on_single_subscriber_per_kind conn0 "close" 7).2.1 (by decide)
  · exact ((on_single_subscriber_per_kind conn0 "toString" 7).2.2 (by decide) (by decide)).1
